import Mathlib

/-!
Verification of the sls-uma serverless user-management core.

Shallow embedding of the permission model of the repository, role serialization,
user repository, signup role assignment, token-validation error mapping,
JWKS key-set cache, and delete-handler permission gate, together with
theorems settling the specification claims about them.

Machine integers (`u32` permission bit-sets, `i64` status codes, second
counts) are modelled as `Nat`/`Int`; all values stay far below any overflow
boundary.  Rust strings are Lean `String`s; where the proofs need structural
recursion over the characters (the `join(":")` / `split(':')` role
encoding), the underlying `List Char` is used.
-/

/-! ### Permission model (`shared/src/entity/user.rs`) -/

/- The `Permissions` bit-flags from `shared/src/entity/user.rs`. -/
namespace Permissions

def READ : Nat := 0b0001
def WRITE : Nat := 0b0010
def CREATE : Nat := 0b0100
def DELETE : Nat := 0b1000
def UPDATE : Nat := 0b10000

/-- The empty bit-set, `Permissions::empty()`. -/
def empty : Nat := 0

/-- `bitflags` `contains`: `self.bits & other.bits == other.bits`. -/
def contains (self other : Nat) : Bool := self &&& other == other

end Permissions

/-- The `Role` enum from `shared/src/entity/user.rs`. -/
inductive Role
  | Admin
  | Reader
  | Writer
deriving DecidableEq, Repr, Fintype

/-- `Role::permissions` from `shared/src/entity/user.rs`. -/
def Role.permissions : Role → Nat
  | .Admin =>
      Permissions.READ ||| Permissions.WRITE ||| Permissions.CREATE
        ||| Permissions.DELETE ||| Permissions.UPDATE
  | .Reader => Permissions.READ
  | .Writer => Permissions.READ ||| Permissions.WRITE ||| Permissions.CREATE

/-- The `Display` impl of `Role`: the stable role names used by the store encoding. -/
def Role.toName : Role → String
  | .Admin => "Admin"
  | .Reader => "Reader"
  | .Writer => "Writer"

instance : Std.Commutative (α := Nat) (· ||| ·) := ⟨fun a b => Nat.lor_comm a b⟩
instance : Std.Associative (α := Nat) (· ||| ·) := ⟨fun a b c => Nat.lor_assoc a b c⟩

/-- The `User` entity from `shared/src/entity/user.rs`.  The Rust `HashSet<Role>`
is modelled as a `Finset Role` (unordered, duplicate-free). -/
@[ext]
structure User where
  id : String
  name : String
  email : String
  organization_id : String
  organization_name : String
  roles : Finset Role
deriving DecidableEq

/-- The fold in `User::permissions`: bitwise-or of `role.permissions()` over a
role set, starting from `Permissions::empty()`. -/
def rolesPermissions (s : Finset Role) : Nat :=
  Finset.fold (· ||| ·) Permissions.empty Role.permissions s

/-- `User::permissions`. -/
def User.permissions (u : User) : Nat := rolesPermissions u.roles

/-- `User::has_permission`: `self.permissions().contains(permission)`. -/
def User.has_permission (u : User) (permission : Nat) : Bool :=
  Permissions.contains u.permissions permission

/-- `User::has_role`. -/
def User.has_role (u : User) (role : Role) : Bool := role ∈ u.roles

/-- `User::add_role`: insert only when the role is not already held. -/
def User.add_role (u : User) (role : Role) : User :=
  if u.has_role role then u else { u with roles := insert role u.roles }

/-- `User::remove_role`: `self.roles.remove(&role)`. -/
def User.remove_role (u : User) (role : Role) : User :=
  { u with roles := u.roles.erase role }

example : Role.Admin.permissions = 31 := by decide
example : Role.Writer.permissions = 7 := by decide
example : Role.Reader.permissions = 1 := by decide

/-- C4: `Role.permissions` is the fixed table Admin ↦ {READ,WRITE,CREATE,DELETE,UPDATE},
Writer ↦ {READ,WRITE,CREATE}, Reader ↦ {READ}; the inclusions Admin ⊋ Writer ⊋ Reader
are strict, and UPDATE and DELETE belong to the Admin set only. -/
theorem role_permissions_fixed_table :
    Role.Admin.permissions
        = (Permissions.READ ||| Permissions.WRITE ||| Permissions.CREATE
            ||| Permissions.DELETE ||| Permissions.UPDATE)
      ∧ Role.Writer.permissions
        = (Permissions.READ ||| Permissions.WRITE ||| Permissions.CREATE)
      ∧ Role.Reader.permissions = Permissions.READ
      ∧ Permissions.contains Role.Admin.permissions Role.Writer.permissions = true
      ∧ Role.Admin.permissions ≠ Role.Writer.permissions
      ∧ Permissions.contains Role.Writer.permissions Role.Reader.permissions = true
      ∧ Role.Writer.permissions ≠ Role.Reader.permissions
      ∧ (∀ r : Role, Permissions.contains r.permissions Permissions.UPDATE = true ↔ r = .Admin)
      ∧ (∀ r : Role, Permissions.contains r.permissions Permissions.DELETE = true ↔ r = .Admin) := by
  decide

/-! ### Effective permissions and role-set mutation (claims C5, C6) -/

lemma fold_lor_testBit (s : Finset Role) (i : Nat) :
    (rolesPermissions s).testBit i = true
      ↔ ∃ r ∈ s, (Role.permissions r).testBit i = true := by
  classical
  induction s using Finset.induction_on with
  | empty => simp [rolesPermissions, Permissions.empty]
  | insert h ih =>
      simp only [rolesPermissions] at ih ⊢
      rw [Finset.fold_insert h]
      simp [Nat.testBit_lor, ih]

/-- A user holding only the Reader role, as stored after a Writer-org signup
downgrade; used to compare the two phrasings of `has_permission`. -/
def readerOnlyUser : User :=
  { id := "2", name := "Bob", email := "bob@example.com",
    organization_id := "org_456", organization_name := "ExampleOrg",
    roles := {Role.Reader} }

/-- C5 counterexample: for the permission set READ|WRITE and a Reader-only user,
`has_permission` is false although the bitwise-AND with the effective set is
nonzero, so the claimed equivalence with AND-nonzero fails. -/
theorem has_permission_and_nonzero_not_equivalent :
    ¬ (readerOnlyUser.has_permission (Permissions.READ ||| Permissions.WRITE) = true
        ↔ (Permissions.READ ||| Permissions.WRITE) &&& readerOnlyUser.permissions ≠ 0) := by
  decide

/-- C5 (amended): the effective permission set is the bitwise-OR of
`role.permissions()` over the role set of the user (the empty bit-set when there are
no roles), and `has_permission(x)` holds iff `x` is a subset of that bitwise-OR
(`x AND effective = x`); the bitwise-AND-nonzero phrasing is dropped. -/
theorem effective_permissions_or_and_subset :
    (∀ (u : User) (i : Nat),
        u.permissions.testBit i = true ↔ ∃ r ∈ u.roles, (r.permissions).testBit i = true)
  ∧ (∀ u : User, u.roles = ∅ → u.permissions = Permissions.empty)
  ∧ (∀ (u : User) (x : Nat), u.has_permission x = true ↔ x &&& u.permissions = x) := by
  refine ⟨?_, ?_, ?_⟩
  · intro u i
    exact fold_lor_testBit u.roles i
  · intro u h
    simp [User.permissions, h, rolesPermissions]
  · intro u x
    simp only [User.has_permission, Permissions.contains, beq_iff_eq]
    rw [Nat.and_comm]

/-- A user record holding no roles at all. -/
def noRolesUser : User :=
  { id := "0", name := "Nia", email := "nia@example.com",
    organization_id := "org_0", organization_name := "ZeroOrg",
    roles := ∅ }

/-- C5 witness: instantiation of the amended theorem at a Reader-only user and
at a user with no roles. -/
theorem effective_permissions_witness :
    (readerOnlyUser.permissions.testBit 0 = true
      ↔ ∃ r ∈ readerOnlyUser.roles, (r.permissions).testBit 0 = true)
  ∧ noRolesUser.permissions = Permissions.empty
  ∧ (readerOnlyUser.has_permission Permissions.READ = true
      ↔ Permissions.READ &&& readerOnlyUser.permissions = Permissions.READ) :=
  ⟨effective_permissions_or_and_subset.1 readerOnlyUser 0,
   effective_permissions_or_and_subset.2.1 noRolesUser rfl,
   effective_permissions_or_and_subset.2.2 readerOnlyUser Permissions.READ⟩

/-- A user holding only the Writer role. -/
def writerOnlyUser : User :=
  { id := "3", name := "Charlie", email := "charlie@example.com",
    organization_id := "org_789", organization_name := "ExampleOrg",
    roles := {Role.Writer} }

/-- C6 counterexample: for a user already holding Writer, `add_role(Writer)`
followed by `remove_role(Writer)` drops the role, so the effective permission
set is not restored. -/
theorem add_remove_existing_role_loses_permissions :
    ((writerOnlyUser.add_role .Writer).remove_role .Writer).permissions
      ≠ writerOnlyUser.permissions := by
  decide

/-- C6 (amended): `add_role` and `remove_role` are idempotent, and for every
user and every role the user does not already hold, `add_role(r)` followed by
`remove_role(r)` restores the original effective permission set. -/
theorem add_remove_role_properties :
    (∀ (u : User) (r : Role), (u.add_role r).add_role r = u.add_role r)
  ∧ (∀ (u : User) (r : Role), (u.remove_role r).remove_role r = u.remove_role r)
  ∧ (∀ (u : User) (r : Role), r ∉ u.roles →
        ((u.add_role r).remove_role r).permissions = u.permissions) := by
  refine ⟨?_, ?_, ?_⟩
  · intro u r
    by_cases h : r ∈ u.roles <;> simp [User.add_role, User.has_role, h]
  · intro u r
    simp [User.remove_role, Finset.erase_idem]
  · intro u r h
    have hb : u.has_role r = false := by simp [User.has_role, h]
    simp only [User.add_role, hb, Bool.false_eq_true, if_false, User.remove_role,
      User.permissions]
    rw [Finset.erase_insert h]

/-- C6 witness: adding then removing Admin on a user that lacks Admin restores
the effective permission set. -/
theorem add_remove_role_witness :
    ((writerOnlyUser.add_role .Admin).remove_role .Admin).permissions
      = writerOnlyUser.permissions :=
  add_remove_role_properties.2.2 writerOnlyUser .Admin (by decide)

/-! ### Role-set store encoding (claim C7)

`User::join_roles` serializes the role set as the role names joined with
`:`; `User::from_item` splits the stored string on `:`, trims each token and
matches it against the three role names, failing hard on anything else.  The
string-level `join`/`split`/`trim` are modelled by structural recursion on the
underlying character lists. -/

/-- Rust `str::split(sep)`: split a character list at every separator;
the result is never empty and keeps empty segments. -/
def splitCh (sep : Char) : List Char → List (List Char)
  | [] => [[]]
  | c :: rest =>
    let r := splitCh sep rest
    if c = sep then [] :: r else (c :: r.headI) :: r.tail

/-- Rust `Vec::join(sep)` on strings: interleave the separator between parts. -/
def intercalateCh (sep : Char) : List (List Char) → List Char
  | [] => []
  | [p] => p
  | p :: q :: ps => p ++ sep :: intercalateCh sep (q :: ps)

/-- Rust `str::trim`: drop whitespace from both ends. -/
def trimChars (l : List Char) : List Char :=
  ((l.dropWhile Char.isWhitespace).reverse.dropWhile Char.isWhitespace).reverse

/-- The role-name match in `User::from_item`: `Admin`, `Reader` and `Writer`
parse; any other token is an unknown role. -/
def Role.ofName (s : String) : Option Role :=
  if s = "Admin" then some .Admin
  else if s = "Reader" then some .Reader
  else if s = "Writer" then some .Writer
  else none

/-- `User::join_roles`: role names joined with `:`. -/
def join_roles (l : List Role) : String :=
  ⟨intercalateCh ':' (l.map fun r => (Role.toName r).data)⟩

/-- The token loop in `User::from_item`: parse each token (after trimming) and
insert it into the set; an unknown token aborts with an error. -/
def parseRoleTokens : List (List Char) → Finset Role → Except String (Finset Role)
  | [], acc => .ok acc
  | t :: rest, acc =>
    match Role.ofName ⟨trimChars t⟩ with
    | some r => parseRoleTokens rest (insert r acc)
    | none => .error ("Unknown role: " ++ (⟨trimChars t⟩ : String))

/-- The roles-attribute deserialization in `User::from_item`:
split on `:` and run the token loop from the empty set. -/
def parseRoles (s : String) : Except String (Finset Role) :=
  parseRoleTokens (splitCh ':' s.data) ∅

lemma splitCh_no_sep (sep : Char) (p : List Char) (h : sep ∉ p) :
    splitCh sep p = [p] := by
  induction p with
  | nil => rfl
  | cons c t ih =>
      have hc : c ≠ sep := fun e => h (e ▸ List.mem_cons_self c t)
      have ht : sep ∉ t := fun m => h (List.mem_cons_of_mem _ m)
      simp [splitCh, hc, ih ht]

lemma splitCh_append_sep (sep : Char) (p t : List Char) (h : sep ∉ p) :
    splitCh sep (p ++ sep :: t) = p :: splitCh sep t := by
  induction p with
  | nil => simp [splitCh]
  | cons c q ih =>
      have hc : c ≠ sep := fun e => h (e ▸ List.mem_cons_self c q)
      have hq : sep ∉ q := fun m => h (List.mem_cons_of_mem _ m)
      simp [splitCh, hc, ih hq]

lemma splitCh_intercalateCh (sep : Char) (parts : List (List Char))
    (hne : parts ≠ []) (h : ∀ p ∈ parts, sep ∉ p) :
    splitCh sep (intercalateCh sep parts) = parts := by
  induction parts with
  | nil => cases hne rfl
  | cons p ps ih =>
      cases ps with
      | nil => simp [intercalateCh, splitCh_no_sep sep p (h p (List.mem_cons_self p []))]
      | cons q qs =>
          rw [intercalateCh,
            splitCh_append_sep sep p _ (h p (List.mem_cons_self p (q :: qs))),
            ih (by simp) (fun x hx => h x (List.mem_cons_of_mem _ hx))]

lemma role_name_no_colon (r : Role) : ':' ∉ (Role.toName r).data := by
  cases r <;> decide

lemma role_ofName_trim_name (r : Role) :
    Role.ofName ⟨trimChars (Role.toName r).data⟩ = some r := by
  cases r <;> decide

lemma parseRoleTokens_map_name (l : List Role) (acc : Finset Role) :
    parseRoleTokens (l.map fun r => (Role.toName r).data) acc
      = .ok (acc ∪ l.toFinset) := by
  induction l generalizing acc with
  | nil => simp [parseRoleTokens]
  | cons r rs ih =>
      simp only [List.map_cons, parseRoleTokens, role_ofName_trim_name r]
      rw [ih]
      simp [Finset.insert_union, Finset.union_insert]

lemma parseRoleTokens_unknown (ts : List (List Char)) (acc : Finset Role)
    (h : ∃ t ∈ ts, Role.ofName ⟨trimChars t⟩ = none) :
    ∃ msg, parseRoleTokens ts acc = .error msg := by
  induction ts generalizing acc with
  | nil => rcases h with ⟨t, ht, _⟩; cases ht
  | cons t ts ih =>
      rcases h with ⟨t0, ht0, hu⟩
      rcases List.mem_cons.mp ht0 with rfl | hmem
      · exact ⟨"Unknown role: " ++ (⟨trimChars t0⟩ : String),
          by simp [parseRoleTokens, hu]⟩
      · cases hof : Role.ofName ⟨trimChars t⟩ with
        | none =>
            exact ⟨"Unknown role: " ++ (⟨trimChars t⟩ : String),
              by simp [parseRoleTokens, hof]⟩
        | some r =>
            rcases ih (insert r acc) ⟨t0, hmem, hu⟩ with ⟨msg, hmsg⟩
            exact ⟨msg, by simp [parseRoleTokens, hof, hmsg]⟩

/-- C7: serializing any non-empty role set (in any iteration order) with
`join_roles` and deserializing with the `from_item` role parser yields the same
role set; and any roles string containing a token that is not a known role name
fails deserialization with an error. -/
theorem role_set_encoding_round_trip :
    (∀ l : List Role, l ≠ [] → parseRoles (join_roles l) = .ok l.toFinset)
  ∧ (∀ s : String,
      (∃ t ∈ splitCh ':' s.data, Role.ofName ⟨trimChars t⟩ = none) →
      ∃ msg, parseRoles s = .error msg) := by
  constructor
  · intro l hl
    show parseRoleTokens
        (splitCh ':' (intercalateCh ':' (l.map fun r => (Role.toName r).data))) ∅
      = .ok l.toFinset
    rw [splitCh_intercalateCh ':' _ (by simpa using hl)
        (fun p hp => by
          rcases List.mem_map.mp hp with ⟨r, _, rfl⟩
          exact role_name_no_colon r),
      parseRoleTokens_map_name]
    simp
  · intro s h
    exact parseRoleTokens_unknown _ ∅ h

/-- C7 witness: the round trip at the two-element set written Admin-first, and
failure of the string with the unknown token `Foo`. -/
theorem role_set_encoding_witness :
    parseRoles (join_roles [Role.Admin, Role.Reader])
        = .ok [Role.Admin, Role.Reader].toFinset
  ∧ ∃ msg, parseRoles "Admin:Foo" = .error msg :=
  ⟨role_set_encoding_round_trip.1 [Role.Admin, Role.Reader] (by decide),
   role_set_encoding_round_trip.2 "Admin:Foo" (by decide)⟩

/-! ### Lambda error taxonomy (`shared/src/errors.rs`) -/

/-- The `LambdaError` enum from `shared/src/errors.rs`. -/
inductive LambdaError where
  | InvalidEmail
  | InvalidUsername
  | InvalidPassword
  | InvalidOrganizationName
  | InvalidToken
  | InvalidRefreshToken
  | AuthenticationFailed
  | TokenExpired
  | InvalidSignature
  | UserNotFound
  | UserAlreadyExists
  | InsufficientPermissions
  | OrganizationNotFound
  | MissingOrganizationId
  | MissingRoles
  | MissingBody
  | MissingToken
  | UserCreationFailed (msg : String)
  | UserDeletionFailed (msg : String)
  | UserUpdateFailed (msg : String)
  | UserRetrievalFailed (msg : String)
  | TokenRefreshFailed (msg : String)
  | InternalError (msg : String)
deriving DecidableEq

/-- `LambdaError::status_code`: the HTTP status mapping (`i64` in the source). -/
def LambdaError.status_code : LambdaError → Int
  | .InvalidEmail | .InvalidUsername | .InvalidPassword | .InvalidOrganizationName
  | .InvalidToken | .InvalidRefreshToken | .MissingBody | .MissingToken
  | .MissingOrganizationId | .MissingRoles => 400
  | .AuthenticationFailed | .TokenExpired | .InvalidSignature => 401
  | .InsufficientPermissions => 403
  | .UserNotFound | .OrganizationNotFound => 404
  | .UserAlreadyExists => 409
  | .UserCreationFailed _ | .UserDeletionFailed _ | .UserUpdateFailed _
  | .UserRetrievalFailed _ | .TokenRefreshFailed _ | .InternalError _ => 500

/-- The `thiserror` `Display` strings of `LambdaError`: the machine-readable
`error` field of the JSON error body built by `create_error_response`. -/
def LambdaError.display : LambdaError → String
  | .InvalidEmail => "Invalid email format"
  | .InvalidUsername => "Invalid username format (3-30 alphanumeric characters, _ or -)"
  | .InvalidPassword => "Invalid password format"
  | .InvalidOrganizationName => "Invalid organization name"
  | .InvalidToken => "Invalid token format"
  | .InvalidRefreshToken => "Invalid refresh token"
  | .AuthenticationFailed => "Authentication failed"
  | .TokenExpired => "Token expired"
  | .InvalidSignature => "Invalid signature"
  | .UserNotFound => "User not found"
  | .UserAlreadyExists => "User already exists"
  | .InsufficientPermissions => "Insufficient permissions"
  | .OrganizationNotFound => "Organization not found"
  | .MissingOrganizationId => "Organization ID is required"
  | .MissingRoles => "At least one role must be specified"
  | .MissingBody => "Missing request body"
  | .MissingToken => "Missing token"
  | .UserCreationFailed m => "Failed to create user: " ++ m
  | .UserDeletionFailed m => "Failed to delete user: " ++ m
  | .UserUpdateFailed m => "Failed to update user: " ++ m
  | .UserRetrievalFailed m => "Failed to retrieve users: " ++ m
  | .TokenRefreshFailed m => "Failed to refresh token: " ++ m
  | .InternalError m => "Internal server error: " ++ m

/-! ### DynamoDB items and the user repository
(`shared/src/repository/user_repository.rs`) -/

/-- A DynamoDB `AttributeValue`, restricted to what the repository reads:
either a string value (`S`) or some other attribute kind. -/
inductive AttrVal where
  | s (v : String)
  | other
deriving DecidableEq

/-- A stored item: the flat attribute map (`HashMap<String, AttributeValue>`). -/
def Item : Type := List (String × AttrVal)

/-- `item.get(key)`. -/
def getAttr (item : Item) (key : String) : Option AttrVal :=
  (List.find? (fun p => p.1 == key) item).map (·.2)

/-- `v.as_s().ok()`. -/
def attrAsS : AttrVal → Option String
  | .s v => some v
  | .other => none

/-- `item.get(key).and_then(|v| v.as_s().ok())`, the attribute-read chain used
throughout the repository. -/
def getS (item : Item) (key : String) : Option String :=
  (getAttr item key).bind attrAsS

/-- Extraction of a required string attribute in `User::from_item`:
present and of string kind, or the written error. -/
def require (o : Option String) (msg : String) : Except String String :=
  match o with
  | some v => .ok v
  | none => .error msg

/-- `User::from_item`: read the six attributes in order, then parse the roles
string; every failure is a typed error. -/
def from_item (item : Item) : Except String User := do
  let id ← require (getS item "id") "Missing or invalid id attribute"
  let name ← require (getS item "name") "Missing or invalid name attribute"
  let email ← require (getS item "email") "Missing or invalid email attribute"
  let organization_id ←
    require (getS item "organization_id") "Missing or invalid organization_id attribute"
  let organization_name ←
    require (getS item "organization_name") "Missing or invalid organization_name attribute"
  let roles_attr ← require (getS item "roles") "Missing or invalid roles attribute"
  let roles ← parseRoles roles_attr
  return { id, name, email, organization_id, organization_name, roles }

/-- Result of running repository code: a value, a typed error, or a Rust panic
(`expect`/`unwrap`). -/
inductive RunOutcome (α : Type) where
  | ok (value : α)
  | err (msg : String)
  | panicked (msg : String)
deriving DecidableEq

/-- `get_user_by_id`, as a function of the store query result
(`Err` of the query, or `Ok` with the optional item list). -/
def get_user_by_id (queryResult : Except String (Option (List Item))) :
    RunOutcome User :=
  match queryResult with
  | .error e => .err e
  | .ok none => .err "Unable to get user by id"
  | .ok (some items) =>
    match items.head? with
    | none => .panicked "user not found in table"
    | some item =>
      match from_item item with
      | .ok u => .ok u
      | .error e => .err e

/-- C10: evaluated at a successful query whose item list is empty — the routine
response when the id is absent — `get_user_by_id` panics through
`items.first().expect(..)` instead of returning the typed error that its own
`None` branch produces. -/
theorem get_user_by_id_panics_on_empty_item_list :
    get_user_by_id (.ok (some [])) = .panicked "user not found in table"
  ∧ get_user_by_id (.ok none) = .err "Unable to get user by id" :=
  ⟨rfl, rfl⟩

/-! ### Signup role assignment (claim C8)
(`lambda/auth/signup/src/main.rs` and
`find_organization_id_by_name` in the user repository) -/

/-- `find_organization_id_by_name`: scan the table, keep the first item whose
`organization_name` string attribute equals the requested name and which has a
string `organization_id`, returning that id. -/
def find_organization_id_by_name (items : Option (List Item))
    (organization_name : String) : Option String :=
  (items.map fun its =>
    (its.filterMap fun item =>
      match getS item "organization_name" with
      | some orgName =>
          if orgName = organization_name then getS item "organization_id" else none
      | none => none).head?).join

/-- `SignupRequest` from `lambda/auth/signup/src/requests.rs`. -/
structure SignupRequest where
  organization_name : String
  user_name : String
  email : String
  password : String

/-- `generate_new_user` from `lambda/auth/signup/src/main.rs`, as a function of
the repository scan result.  `generate_uuid` (whose source file is not in the
repository snapshot) is modelled as the opaque fresh id `freshOrgId`. -/
def generate_new_user (id : String) (request : SignupRequest)
    (scanResult : Except String (Option (List Item))) (freshOrgId : String) :
    Except LambdaError User :=
  match scanResult with
  | .error e => .error (.InternalError e)
  | .ok items =>
    match find_organization_id_by_name items request.organization_name with
    | some existing_org_id =>
        .ok { id, name := request.user_name, email := request.email,
              organization_id := existing_org_id,
              organization_name := request.organization_name,
              roles := {Role.Writer} }
    | none =>
        .ok { id, name := request.user_name, email := request.email,
              organization_id := freshOrgId,
              organization_name := request.organization_name,
              roles := {Role.Admin} }

lemma find_org_id_isSome (items : List Item) (name : String)
    (wf : ∀ item ∈ items, (getS item "organization_id").isSome = true) :
    (find_organization_id_by_name (some items) name).isSome = true
      ↔ ∃ item ∈ items, getS item "organization_name" = some name := by
  have hrepr : find_organization_id_by_name (some items) name
      = (items.filterMap fun item =>
          match getS item "organization_name" with
          | some orgName => if orgName = name then getS item "organization_id" else none
          | none => none).head? := rfl
  rw [hrepr, List.head?_isSome]
  rw [ne_eq, List.filterMap_eq_nil_iff]
  push_neg
  constructor
  · rintro ⟨item, hmem, hf⟩
    refine ⟨item, hmem, ?_⟩
    rcases hn : getS item "organization_name" with _ | orgName
    · rw [hn] at hf; simp at hf
    · rw [hn] at hf
      by_cases he : orgName = name
      · rw [he]
      · simp [he] at hf
  · rintro ⟨item, hmem, hname⟩
    refine ⟨item, hmem, ?_⟩
    have hid := wf item hmem
    rcases ho : getS item "organization_id" with _ | v
    · rw [ho] at hid; simp at hid
    · simp [hname, ho]

/-- C8: during signup, when a stored record with the requested organization
name exists (its organization id given by the scan) the generated user holds
exactly the Writer role and that organization id; when no such record exists
the generated user holds exactly the Admin role and the freshly generated
organization id.  The third conjunct ties the scan result to record existence
for item lists whose items all carry a string organization id. -/
theorem signup_role_and_org_assignment :
    ∀ (id : String) (request : SignupRequest) (items : List Item) (freshOrgId : String),
      (∀ oid, find_organization_id_by_name (some items) request.organization_name = some oid →
        generate_new_user id request (.ok (some items)) freshOrgId
          = .ok { id, name := request.user_name, email := request.email,
                  organization_id := oid,
                  organization_name := request.organization_name,
                  roles := {Role.Writer} })
    ∧ (find_organization_id_by_name (some items) request.organization_name = none →
        generate_new_user id request (.ok (some items)) freshOrgId
          = .ok { id, name := request.user_name, email := request.email,
                  organization_id := freshOrgId,
                  organization_name := request.organization_name,
                  roles := {Role.Admin} })
    ∧ ((∀ item ∈ items, (getS item "organization_id").isSome = true) →
        ((find_organization_id_by_name (some items) request.organization_name).isSome = true
          ↔ ∃ item ∈ items,
              getS item "organization_name" = some request.organization_name)) := by
  intro id request items freshOrgId
  refine ⟨?_, ?_, ?_⟩
  · intro oid h
    simp [generate_new_user, h]
  · intro h
    simp [generate_new_user, h]
  · intro wf
    exact find_org_id_isSome items request.organization_name wf

/-- A stored record of the organization `ExampleOrg` with id `org_1`. -/
def exampleOrgItem : Item :=
  [("id", .s "u0"), ("organization_name", .s "ExampleOrg"), ("organization_id", .s "org_1")]

/-- C8 witness: with one matching stored record the new user gets Writer and
`org_1`; with an empty store the new user gets Admin and the fresh id. -/
theorem signup_role_and_org_assignment_witness :
    generate_new_user "u1" ⟨"ExampleOrg", "Alice", "a@example.com", "Pw123456"⟩
        (.ok (some [exampleOrgItem])) "fresh-uuid"
      = .ok { id := "u1", name := "Alice", email := "a@example.com",
              organization_id := "org_1", organization_name := "ExampleOrg",
              roles := {Role.Writer} }
  ∧ generate_new_user "u1" ⟨"ExampleOrg", "Alice", "a@example.com", "Pw123456"⟩
        (.ok (some [])) "fresh-uuid"
      = .ok { id := "u1", name := "Alice", email := "a@example.com",
              organization_id := "fresh-uuid", organization_name := "ExampleOrg",
              roles := {Role.Admin} }
  ∧ ((find_organization_id_by_name (some [exampleOrgItem]) "ExampleOrg").isSome = true
      ↔ ∃ item ∈ [exampleOrgItem],
          getS item "organization_name" = some "ExampleOrg") :=
  ⟨(signup_role_and_org_assignment "u1" ⟨"ExampleOrg", "Alice", "a@example.com", "Pw123456"⟩
      [exampleOrgItem] "fresh-uuid").1 "org_1" (by decide),
   (signup_role_and_org_assignment "u1" ⟨"ExampleOrg", "Alice", "a@example.com", "Pw123456"⟩
      [] "fresh-uuid").2.1 (by decide),
   (signup_role_and_org_assignment "u1" ⟨"ExampleOrg", "Alice", "a@example.com", "Pw123456"⟩
      [exampleOrgItem] "fresh-uuid").2.2 (by decide)⟩

/-! ### Token-validate error mapping (claim C1)
(`lambda/tokens/validate/src/main.rs` and `shared/src/aws/cognito/error.rs`) -/

/-- Whether `n` occurs as a contiguous run inside `h`: Rust `str::contains`. -/
def charsContain (n : List Char) : List Char → Bool
  | [] => n.isEmpty
  | c :: t => ((c :: t).take n.length == n) || charsContain n t

/-- Rust `str::contains` on strings (case-sensitive substring test). -/
def strContains (h n : String) : Bool := charsContain n.data h.data

/-- `CognitoError` from `shared/src/aws/cognito/error.rs`, restricted to the
variants `validate_token`/`get_jwks` produce.  `JwtError` carries the `Display`
rendering of the wrapped `jsonwebtoken` error (for an expired token the library
renders the `Debug` form of its kind, the Pascal-case `ExpiredSignature`). -/
inductive CognitoError where
  | JwtError (inner : String)
  | InvalidTokenError (msg : String)
  | ReqwestError (msg : String)
  | HttpError (msg : String)
deriving DecidableEq

/-- The `thiserror` `Display` strings of `CognitoError`. -/
def CognitoError.display : CognitoError → String
  | .JwtError inner => "JWT Error: " ++ inner
  | .InvalidTokenError m => "Invalid Token Error: " ++ m
  | .ReqwestError m => "Reqwest Error: " ++ m
  | .HttpError m => "Http Error: " ++ m

/-- The error-classification arm of `token_validate_handler`: map the
`validate_token` error to a `LambdaError` by case-sensitive substring tests on
its rendered message. -/
def classify_validate_error (e : CognitoError) : LambdaError :=
  if strContains e.display "expired" then .TokenExpired
  else if strContains e.display "signature" then .InvalidSignature
  else .InternalError e.display

/-- C1: evaluated at the two handler inputs the claim describes.  A token whose
`kid` is absent from the key set makes `validate_token` fail with
`InvalidTokenError("Key not found")`, and an expired, correctly signed token
makes it fail with `JwtError` rendering `ExpiredSignature`; both messages
contain neither lowercase `expired` nor lowercase `signature`, so the handler
classifies both as `InternalError` and answers HTTP 500, not the claimed
401 classes — and the dedicated `TokenExpired`/`InvalidSignature` arms of the
classifier are bypassed. -/
theorem token_validate_maps_unknown_key_and_expired_to_500 :
    classify_validate_error (.InvalidTokenError "Key not found")
        = .InternalError "Invalid Token Error: Key not found"
  ∧ (classify_validate_error (.InvalidTokenError "Key not found")).status_code = 500
  ∧ classify_validate_error (.JwtError "ExpiredSignature")
        = .InternalError "JWT Error: ExpiredSignature"
  ∧ (classify_validate_error (.JwtError "ExpiredSignature")).status_code = 500
  ∧ LambdaError.status_code .TokenExpired = 401
  ∧ LambdaError.status_code .InvalidSignature = 401 := by
  refine ⟨by decide, ?_, by decide, ?_, rfl, rfl⟩
  · decide
  · decide

/-! ### JWKS key-set cache (claims C2, C3)
(`shared/src/aws/cognito/token_authorizer.rs`) -/

/-- The cached JWKS JSON value: either the `json!({})` placeholder installed by
`CognitoTokenAuthorizer::new`, or a fetched JSON document (abstracted by the
key ids it lists; `get_jwks` treats the document opaquely). -/
inductive Jwks where
  | emptyObject
  | document (keys : List String)
deriving DecidableEq

/-- The outcome of the HTTP fetch inside `get_jwks`: the request itself fails,
or a response arrives with a success flag, a status text, and a body that
either parses as JSON or does not. -/
inductive FetchOutcome where
  | networkError (msg : String)
  | response (success : Bool) (statusText : String) (body : Option Jwks)
deriving DecidableEq

/-- The state behind the `RwLock`: the cached value and the fetch timestamp
(seconds; `Instant` arithmetic is saturating, as is `Nat` subtraction). -/
structure JwksCache where
  cached : Jwks
  fetchTime : Nat
deriving DecidableEq

/-- `CognitoTokenAuthorizer::new`: the cache starts as the empty JSON object
paired with the construction instant. -/
def JwksCache.mk_new (now : Nat) : JwksCache := ⟨.emptyObject, now⟩

/-- `get_jwks`: refresh only when the cached timestamp is over an hour old.
In the refresh branch the source builds `CognitoError::HttpError(..)` for a
non-success status but never returns it, so the `success` flag does not affect
the result; a body that parses is stored and returned regardless.  The third
component records whether a network fetch was issued. -/
def get_jwks (fetch : FetchOutcome) (now : Nat) (st : JwksCache) :
    Except CognitoError Jwks × JwksCache × Bool :=
  if now - st.fetchTime > 3600 then
    match fetch with
    | .networkError m => (.error (.ReqwestError m), st, true)
    | .response _success _statusText body =>
      match body with
      | none => (.error (.ReqwestError "error decoding response body"), st, true)
      | some jwks => (.ok jwks, ⟨jwks, now⟩, true)
  else (.ok st.cached, st, false)

/-- C2: evaluated within the TTL window after construction — even with a
successful fetch available, the first `get_jwks` issues no fetch and returns
the `json!({})` placeholder installed by `new`, not a fetched key set, because
`new` stamps the empty placeholder with the construction instant. -/
theorem first_get_jwks_returns_empty_placeholder :
    get_jwks (.response true "200 OK" (some (.document ["kid1"]))) 1800
        (JwksCache.mk_new 0)
      = (.ok .emptyObject, ⟨.emptyObject, 0⟩, false)
  ∧ get_jwks (.response true "200 OK" (some (.document ["kid1"]))) 3600
        (JwksCache.mk_new 0)
      = (.ok .emptyObject, ⟨.emptyObject, 0⟩, false) :=
  ⟨rfl, rfl⟩

/-- C3: evaluated at a stale cache receiving a non-success HTTP response whose
body is valid JSON — because the constructed `HttpError` is never returned,
`get_jwks` stores that error body over the previously good key set and returns
it as `Ok`, instead of failing and leaving the cache unchanged.  (A network
error or an unparseable body does return an error and leaves the cache
unchanged, as the second and third conjuncts record.) -/
theorem failed_fetch_replaces_cached_key_set :
    get_jwks (.response false "404 Not Found" (some (.document ["errorBody"]))) 4000
        ⟨.document ["goodKid"], 0⟩
      = (.ok (.document ["errorBody"]), ⟨.document ["errorBody"], 4000⟩, true)
  ∧ get_jwks (.networkError "connection refused") 4000 ⟨.document ["goodKid"], 0⟩
      = (.error (.ReqwestError "connection refused"), ⟨.document ["goodKid"], 0⟩, true)
  ∧ get_jwks (.response true "200 OK" none) 4000 ⟨.document ["goodKid"], 0⟩
      = (.error (.ReqwestError "error decoding response body"),
          ⟨.document ["goodKid"], 0⟩, true) :=
  ⟨rfl, rfl, rfl⟩

/-! ### Delete-handler permission gate (claim C9)
(`lambda/users/delete/src/main.rs`) -/

/-- `check_delete_permission_with_cache`: a cached decision for the user id is
authoritative; on a miss the DELETE bit of the freshly fetched user is
computed, written to the cache, and enforced.  Returns the check result and
the permission-cache entry afterwards. -/
def check_delete_permission_with_cache (user : User) (permCache : Option Bool) :
    Except LambdaError Unit × Option Bool :=
  match permCache with
  | some b => ((if b then .ok () else .error .InsufficientPermissions), some b)
  | none =>
    let hp := user.has_permission Permissions.DELETE
    ((if hp then .ok () else .error .InsufficientPermissions), some hp)

/-- What one `delete_user_handler` request does after the record of the requester
was fetched: the response status, whether the identity-provider delete and the
store delete were invoked, and the permission-cache entry left behind. -/
structure DeleteOutcome where
  status : Int
  cognitoDeleteCalled : Bool
  dynamoDeleteCalled : Bool
  permCacheAfter : Option Bool
deriving DecidableEq

/-- `delete_user_handler` around its permission gate: a failed check is turned
into an error response before either delete call; a passed check runs the
provider delete and then the store delete. -/
def delete_user_handler (user : User) (permCache : Option Bool) : DeleteOutcome :=
  match check_delete_permission_with_cache user permCache with
  | (.error e, c) => ⟨e.status_code, false, false, c⟩
  | (.ok _, c) => ⟨200, true, true, c⟩

/-- The requester while their stored record still held the Admin role. -/
def requesterAsAdmin : User :=
  { id := "u9", name := "Dana", email := "dana@example.com",
    organization_id := "org_9", organization_name := "NineOrg",
    roles := {Role.Admin} }

/-- The same requester after their stored roles were downgraded to Reader. -/
def requesterAsReader : User :=
  { id := "u9", name := "Dana", email := "dana@example.com",
    organization_id := "org_9", organization_name := "NineOrg",
    roles := {Role.Reader} }

/-- C9 counterexample: a first delete request while the requester held Admin
populates the permission cache with `true`; after the stored roles are
downgraded to Reader (so the effective set lacks DELETE), a second request in
the same warm process hits that stale entry and proceeds to both the provider
and the store delete with status 200 instead of returning 403. -/
theorem stale_permission_cache_bypasses_delete_check :
    requesterAsReader.has_permission Permissions.DELETE = false
  ∧ (delete_user_handler requesterAsAdmin none).permCacheAfter = some true
  ∧ delete_user_handler requesterAsReader
        (delete_user_handler requesterAsAdmin none).permCacheAfter
      = ⟨200, true, true, some true⟩ := by
  refine ⟨by decide, by decide, by decide⟩

/-- C9 (amended): for every delete request by a requester whose effective
permission set lacks DELETE, provided the permission cache holds no stale
`true` entry for that requester (the entry is absent or `false`), the handler
answers 403 and invokes neither the identity-provider delete nor the store
delete. -/
theorem delete_without_permission_rejected_403 :
    ∀ (user : User) (permCache : Option Bool),
      user.has_permission Permissions.DELETE = false →
      permCache ≠ some true →
      delete_user_handler user permCache = ⟨403, false, false, some false⟩ := by
  intro user permCache hperm hcache
  match permCache with
  | some true => cases hcache rfl
  | some false =>
      simp [delete_user_handler, check_delete_permission_with_cache,
        LambdaError.status_code]
  | none =>
      simp [delete_user_handler, check_delete_permission_with_cache, hperm,
        LambdaError.status_code]

/-- C9 witness: the amended theorem at the Reader-role requester and an empty
permission cache. -/
theorem delete_without_permission_rejected_403_witness :
    delete_user_handler requesterAsReader none = ⟨403, false, false, some false⟩ :=
  delete_without_permission_rejected_403 requesterAsReader none (by decide)
    (by decide)
